import Mathlib

/-
Verification development for the Neuro-Fade core pipeline.

The embedding translates the repository's signal-processing and control-loop
core into Lean:
  * `FrameAnalyzer`  — frame-analyzer.js (histogram, motion, scene cuts, metrics)
  * `NPUBridge`      — npu-bridge.js (reference and accelerated histogram distance)
  * `NeuroFadeDetector` — detector.js (score aggregation and smoothing, event windows)
  * `FadeEngine`     — fade-engine.js (intensity curve, targets, breathe override,
                        per-tick convergence)

JavaScript numbers are modelled as exact rationals (ℚ); quantities entering
transcendental functions (Math.log10) are modelled over ℝ.  Timestamps are ℕ
milliseconds.  JavaScript exceptions are modelled with Option: a capture that
would throw is a `none` frame.
-/

/-- Six effect channels of the fade engine (fade-engine.js `currentEffects` /
`targetEffects` objects), generic in the number type. -/
structure Effects (α : Type) where
  grayscale : α
  saturation : α
  brightness : α
  blur : α
  playbackRate : α
  audioIntensity : α
deriving DecidableEq

namespace FadeEngine

variable {α : Type} [LinearOrderedField α]

/-- Neutral effect values (fade-engine.js constructor / the `score < LOW`
branch of `update`). -/
def neutralEffects : Effects α :=
  { grayscale := 0, saturation := 1, brightness := 1, blur := 0
    playbackRate := 1, audioIntensity := 0 }

/-- The four-segment intensity computation from `FadeEngine.update` (the
`else` branch): thresholds LOW = 25, MODERATE = 45, HIGH = 65, CRITICAL = 85
from constants.js, followed by `Math.min(intensity, 1)`. -/
def segIntensity (score : α) : α :=
  min
    (if score < 45 then (score - 25) / (45 - 25) * 0.25
     else if score < 65 then 0.25 + (score - 45) / (65 - 45) * 0.35
     else if score < 85 then 0.60 + (score - 65) / (85 - 65) * 0.25
     else 0.85 + (score - 85) / (100 - 85) * 0.15) 1

/-- The score → intensity map of `FadeEngine.update`: intensity is 0 below the
LOW threshold (the neutral-reset branch), otherwise the four-segment curve. -/
def intensity (score : α) : α :=
  if score < 25 then 0 else segIntensity score

/-- Channel targets computed from an intensity value (fade-engine.js
`update`, using the EFFECTS ranges of constants.js: GRAYSCALE max 1,
SATURATION 0.2–1, BRIGHTNESS 0.7–1, BLUR max 1.5, PLAYBACK_RATE 0.85–1). -/
def effectsFromIntensity (i : α) : Effects α :=
  { grayscale := i * 1
    saturation := 1 - i * (1 - 0.2)
    brightness := 1 - i * (1 - 0.7)
    blur := i * 1.5
    playbackRate := 1 - i * (1 - 0.85)
    audioIntensity := i }

/-- `FadeEngine.update(dopamineScore)`: the new `targetEffects` computed from a
score. -/
def updateTarget (score : α) : Effects α :=
  if score < 25 then neutralEffects else effectsFromIntensity (segIntensity score)

/-- The fixed calming preset of `FadeEngine.breathe`. -/
def breathePreset : Effects α :=
  { grayscale := 0.6, saturation := 0.4, brightness := 0.85, blur := 0.8
    playbackRate := 0.9, audioIntensity := 0.5 }

/-- Target-related state of the fade engine: the current target set, the
`breatheMode` flag, and the pending breathe timeout (fire time and the target
saved when `breathe()` ran). -/
structure EngineState where
  targetEffects : Effects ℚ
  breatheMode : Bool
  pending : Option (ℕ × Effects ℚ)
deriving DecidableEq

/-- Effect of `FadeEngine.update(score)` on the engine state: the target set is
replaced unconditionally (the code does not consult `breatheMode`). -/
def engineUpdate (s : EngineState) (score : ℚ) : EngineState :=
  { s with targetEffects := updateTarget score }

/-- Effect of `FadeEngine.breathe()` at time `now`: save the current target
set, force the calming preset, and schedule a restore 5000 ms later. -/
def engineBreathe (s : EngineState) (now : ℕ) : EngineState :=
  { targetEffects := breathePreset
    breatheMode := true
    pending := some (now + 5000, s.targetEffects) }

/-- The `setTimeout` callback of `FadeEngine.breathe`: restore the target set
that was saved when the breathe was triggered and clear `breatheMode`. -/
def engineRestore (s : EngineState) : EngineState :=
  match s.pending with
  | some (_, saved) => { targetEffects := saved, breatheMode := false, pending := none }
  | none => s

/-- One convergence tick for a single channel (`FadeEngine._startAnimation`
`step`): move 6% of the way toward the target, or snap to the target once the
remaining delta is at most 0.001 in absolute value. -/
def stepChannel (target current : ℚ) : ℚ :=
  if 1/1000 < |target - current| then current + (target - current) * (6/100)
  else target

/-- One animation tick applied to all six channels. -/
def animStep (target current : Effects ℚ) : Effects ℚ :=
  { grayscale := stepChannel target.grayscale current.grayscale
    saturation := stepChannel target.saturation current.saturation
    brightness := stepChannel target.brightness current.brightness
    blur := stepChannel target.blur current.blur
    playbackRate := stepChannel target.playbackRate current.playbackRate
    audioIntensity := stepChannel target.audioIntensity current.audioIntensity }

/-- First linear segment of the intensity curve (25 ≤ score < 45), written as
a standalone function of a real score for the continuity analysis. -/
noncomputable def seg1 (s : ℝ) : ℝ := (s - 25) / 20 * 0.25

/-- Second linear segment of the intensity curve (45 ≤ score < 65). -/
noncomputable def seg2 (s : ℝ) : ℝ := 0.25 + (s - 45) / 20 * 0.35

/-- Third linear segment of the intensity curve (65 ≤ score < 85). -/
noncomputable def seg3 (s : ℝ) : ℝ := 0.60 + (s - 65) / 20 * 0.25

/-- Fourth linear segment of the intensity curve (score ≥ 85, before the
clamp). -/
noncomputable def seg4 (s : ℝ) : ℝ := 0.85 + (s - 85) / 15 * 0.15

/-- The unclamped four-segment curve written with weak inequalities; since the
segments agree at the boundaries this coincides with the strict-inequality
selection used by `segIntensity`. -/
noncomputable def pwLe (s : ℝ) : ℝ :=
  if s ≤ 45 then seg1 s else if s ≤ 65 then seg2 s else if s ≤ 85 then seg3 s
  else seg4 s

/-- The `stillAnimating` flag computed by one tick of
`FadeEngine._startAnimation`: true exactly when some channel was still outside
the snap band before the tick. -/
def stillAnimating (target current : Effects ℚ) : Bool :=
  decide (1/1000 < |target.grayscale - current.grayscale|) ||
  decide (1/1000 < |target.saturation - current.saturation|) ||
  decide (1/1000 < |target.brightness - current.brightness|) ||
  decide (1/1000 < |target.blur - current.blur|) ||
  decide (1/1000 < |target.playbackRate - current.playbackRate|) ||
  decide (1/1000 < |target.audioIntensity - current.audioIntensity|)

end FadeEngine

namespace FrameAnalyzer

/-- Chi-squared accumulation loop of `FrameAnalyzer._histogramDiff` (and,
textually identical, `NPUBridge._jsHistogramDistance`): bins with a zero bin
sum contribute nothing.  The index loop over two equal-length arrays is
embedded as parallel structural recursion. -/
def chiSqTerms : List ℚ → List ℚ → ℚ
  | a :: t1, b :: t2 =>
      (if 0 < a + b then (a - b) ^ 2 / (a + b) else 0) + chiSqTerms t1 t2
  | _, _ => 0

/-- `FrameAnalyzer._histogramDiff(h1, h2)`: the per-bin chi-squared sum divided
by the bin count `h1.length`. -/
def histogramDiff (h1 h2 : List ℚ) : ℚ :=
  chiSqTerms h1 h2 / h1.length

/-- Per-bin counting loop of `FrameAnalyzer._computeHistogram`: the flat RGBA
pixel data is consumed four bytes at a time; each of R, G, B increments bucket
`floor(value / (256/16))` of its own 16-bin block.  `histCounts data j` is the
final count of histogram slot `j` (0 ≤ j < 48). -/
def histCounts : List ℕ → ℕ → ℕ
  | r :: g :: b :: _ :: rest, j =>
      (if r / 16 = j then 1 else 0) + (if 16 + g / 16 = j then 1 else 0) +
        (if 32 + b / 16 = j then 1 else 0) + histCounts rest j
  | _, _ => 0

/-- `FrameAnalyzer._computeHistogram(data)`: 16 bins per colour channel,
concatenated to 48 slots, each normalized by the pixel count
`data.length / 4`. -/
def computeHistogram (data : List ℕ) : List ℚ :=
  (List.range 48).map fun j => (histCounts data j : ℚ) / ((data.length : ℚ) / 4)

/-- Sampling loop of `FrameAnalyzer._computeMotion`: every 16th pixel (stride
of 64 flat bytes) contributes `(|ΔR| + |ΔG| + |ΔB|) / (3·255)` comparing the
current frame to the previous raw buffer. -/
def motionTerms : List ℕ → List ℕ → ℚ
  | c0 :: c1 :: c2 :: crest, l0 :: l1 :: l2 :: lrest =>
      (|(c0 : ℚ) - l0| + |(c1 : ℚ) - l1| + |(c2 : ℚ) - l2|) / (3 * 255) +
        motionTerms (crest.drop 61) (lrest.drop 61)
  | _, _ => 0
termination_by c _ => c.length
decreasing_by
  simp only [List.length_drop, List.length_cons]
  omega

/-- `FrameAnalyzer._computeMotion(currentData)`: zero on the very first sample
(no previous buffer), otherwise the sampled-difference sum divided by
`pixelCount / step = (length/4) / 16`. -/
def computeMotion (cur : List ℕ) (last : Option (List ℕ)) : ℚ :=
  match last with
  | none => 0
  | some l => motionTerms cur l / ((cur.length : ℚ) / 4 / 16)

/-- `FrameAnalyzer._average(arr)`. -/
def averageQ (l : List ℚ) : ℚ :=
  if l.length = 0 then 0 else l.sum / l.length

/-- Mutable state of a `FrameAnalyzer` instance. -/
structure AnalyzerState where
  previousHistogram : Option (List ℚ)
  sceneCuts : List ℕ
  motionScores : List ℚ
  frameCount : ℕ
  lastFrameData : Option (List ℕ)
deriving DecidableEq

/-- A monitored visual source as `analyzeFrame` observes it.  `frame = none`
models a pixel read that raises (cross-origin / unavailable frame), which the
code catches. -/
structure VideoSource where
  paused : Bool
  ended : Bool
  readyState : ℕ
  videoWidth : ℕ
  frame : Option (List ℕ)
deriving DecidableEq

/-- The record returned by a successful `FrameAnalyzer.analyzeFrame`. -/
structure AnalyzeResult where
  isSceneCut : Bool
  motionScore : ℚ
  cutRate : ℚ
  avgMotion : ℚ
  frameCount : ℕ
  histogram : List ℚ
deriving DecidableEq

/-- `FrameAnalyzer.analyzeFrame(videoElement)` at time `now`: skip guard for
paused/ended/not-ready/zero-width sources, `null` (and untouched state) when
the pixel read raises, otherwise histogram, motion, scene-cut classification
against the previous histogram (sync fallback distance, threshold 0.35),
cut-window eviction (3000 ms), cut rate per 10 s, and the bounded trailing
motion list (last 20). -/
def analyzeFrame (st : AnalyzerState) (v : VideoSource) (now : ℕ) :
    AnalyzerState × Option AnalyzeResult :=
  if v.paused || v.ended || v.readyState < 2 || v.videoWidth == 0 then (st, none)
  else
    match v.frame with
    | none => (st, none)
    | some data =>
        let histogram := computeHistogram data
        let motionScore := computeMotion data st.lastFrameData
        let isSceneCut :=
          match st.previousHistogram with
          | none => false
          | some prev => decide ((35 : ℚ)/100 < histogramDiff prev histogram)
        let cuts :=
          (if isSceneCut then st.sceneCuts ++ [now] else st.sceneCuts).filter
            fun t => now - t < 3000
        let cutRate : ℚ := (cuts.length : ℚ) / (3000 / 1000) * 10
        let motions :=
          let pushed := st.motionScores ++ [motionScore]
          if 20 < pushed.length then pushed.tail else pushed
        (⟨some histogram, cuts, motions, st.frameCount + 1, some data⟩,
          some ⟨isSceneCut, motionScore, cutRate, averageQ motions,
            st.frameCount + 1, histogram⟩)

/-- The record returned by `FrameAnalyzer.getMetrics`. -/
structure Metrics where
  cutRate : ℚ
  avgMotion : ℚ
  totalFrames : ℕ
  recentCuts : ℕ
deriving DecidableEq

/-- `FrameAnalyzer.getMetrics()`: reads the stored scene-cut list as is (no
observation-time eviction happens here). -/
def getMetrics (st : AnalyzerState) : Metrics :=
  { cutRate :=
      if 0 < st.sceneCuts.length then (st.sceneCuts.length : ℚ) / (3000 / 1000) * 10
      else 0
    avgMotion := averageQ st.motionScores
    totalFrames := st.frameCount
    recentCuts := st.sceneCuts.length }

end FrameAnalyzer

namespace NPUBridge

/-- Accumulation of the WebNN graph built by `NPUBridge._buildSceneCutGraph`:
`(h1 - h2)^2 / (h1 + h2 + 1e-10)` per bin, with no zero-sum skip (the epsilon
constant regularizes the denominator instead). -/
def graphChiTerms : List ℚ → List ℚ → ℚ
  | a :: t1, b :: t2 =>
      (a - b) ^ 2 / (a + b + 1/10000000000) + graphChiTerms t1 t2
  | _, _ => 0

/-- The value computed by the accelerated scene-cut graph
(`NPUBridge._buildSceneCutGraph`): `reduceMean` of the per-bin chi terms,
i.e. their sum divided by the bin count. -/
def graphHistogramDistance (h1 h2 : List ℚ) : ℚ :=
  graphChiTerms h1 h2 / h1.length

/-- `NPUBridge._jsHistogramDistance(h1, h2)`, the synchronous reference path;
its body is textually identical to `FrameAnalyzer._histogramDiff`. -/
def jsHistogramDistance (h1 h2 : List ℚ) : ℚ :=
  FrameAnalyzer.chiSqTerms h1 h2 / h1.length

/-- Test vector: a normalized 48-bin histogram (each 16-bin colour channel
sums to 1) putting a 1e-9 sliver of the red channel in bin 0. -/
def tinyMassH1 : List ℚ :=
  [1/1000000000, 1 - 1/1000000000, 0, 0, 0, 0, 0, 0, 0, 0, 0, 0, 0, 0, 0, 0,
   1, 0, 0, 0, 0, 0, 0, 0, 0, 0, 0, 0, 0, 0, 0, 0,
   1, 0, 0, 0, 0, 0, 0, 0, 0, 0, 0, 0, 0, 0, 0, 0]

/-- Test vector: the same histogram with the red-channel sliver moved to
bin 2. -/
def tinyMassH2 : List ℚ :=
  [0, 1 - 1/1000000000, 1/1000000000, 0, 0, 0, 0, 0, 0, 0, 0, 0, 0, 0, 0, 0,
   1, 0, 0, 0, 0, 0, 0, 0, 0, 0, 0, 0, 0, 0, 0, 0,
   1, 0, 0, 0, 0, 0, 0, 0, 0, 0, 0, 0, 0, 0, 0, 0]

end NPUBridge

namespace NeuroFadeDetector

/-- A recorded scroll event (`detector.js _scrollHandler`: `{ time, velocity, dy }`). -/
structure ScrollEvent where
  time : ℕ
  velocity : ℚ
  dy : ℚ
deriving DecidableEq

/-- `detector.js _scrollHandler`: push the new event, then drop events older
than `SCROLL.RAPID_SCROLL_WINDOW = 10000` ms. -/
def scrollIntake (events : List ScrollEvent) (now : ℕ) (velocity dy : ℚ) :
    List ScrollEvent :=
  (events ++ [ScrollEvent.mk now velocity dy]).filter
    fun e => now - e.time < 10000

/-- The fast-scroll count read by `_updateDopamineScore`: events whose velocity
exceeds `SCROLL.VELOCITY_THRESHOLD = 800`; no eviction by age happens at this
read. -/
def fastScrollCount (events : List ScrollEvent) : ℕ :=
  (events.filter fun e => (800 : ℚ) < e.velocity).length

/-- The DOM-height-change poll of `detector.js start()`: when the height
changed, push the timestamp and drop entries older than
`SCROLL.RAPID_SCROLL_WINDOW = 10000` ms. -/
def domIntake (changes : List ℕ) (now : ℕ) : List ℕ :=
  (changes ++ [now]).filter fun t => now - t < 10000

/-- Sensitivity application and exponential smoothing tail of
`NeuroFadeDetector._updateDopamineScore`:
`rawScore *= (0.5 + sensitivity * 1.5)`, clamp to 100, then
`score = 0.15 * min(rawScore, 100) + 0.85 * previousScore`. -/
def smoothUpdate {α : Type} [LinearOrderedField α]
    (rawScore sensitivity prev : α) : α :=
  0.15 * min (rawScore * (0.5 + sensitivity * 1.5)) 100 + (1 - 0.15) * prev

/-- Scene-cut sub-score of `_updateDopamineScore` (HIGH_CUT_RATE = 8,
MOTION_THRESHOLD = 0.25). -/
noncomputable def sceneCutScoreOf (cutRate avgMotion : ℝ) : ℝ :=
  (min (cutRate / 8) 1 * 0.7 + min (avgMotion / 0.25) 1 * 0.3) * 100

/-- Scroll-velocity sub-score of `_updateDopamineScore`
(RAPID_SCROLL_COUNT = 5). -/
noncomputable def scrollScoreOf (fastScrolls : ℕ) : ℝ :=
  min ((fastScrolls : ℝ) / 5) 1 * 100

/-- Time-on-page sub-score of `_updateDopamineScore`:
`min(log10(1 + elapsed/60) * 50, 100)` with `elapsed` in seconds. -/
noncomputable def timeScoreOf (elapsed : ℝ) : ℝ :=
  min (Real.logb 10 (1 + elapsed / 60) * 50) 100

/-- Content-change sub-score of `_updateDopamineScore`
(INFINITE_SCROLL_THRESHOLD = 20). -/
noncomputable def contentChangeScoreOf (domChanges : ℕ) : ℝ :=
  min ((domChanges : ℝ) / 20) 1 * 100

/-- Active-video sub-score of `_updateDopamineScore`. -/
noncomputable def videoScoreOf (activeVideos : ℕ) : ℝ :=
  min ((activeVideos : ℝ) / 3) 1 * 100

/-- Weighted composite `rawScore` of `_updateDopamineScore`, weights from
constants.js SCORE_WEIGHTS (0.30 / 0.25 / 0.20 / 0.15 / 0.10). -/
noncomputable def rawCompositeScore (cutRate avgMotion : ℝ) (fastScrolls : ℕ)
    (elapsed : ℝ) (domChanges activeVideos : ℕ) : ℝ :=
  sceneCutScoreOf cutRate avgMotion * 0.30 + scrollScoreOf fastScrolls * 0.25 +
    timeScoreOf elapsed * 0.20 + contentChangeScoreOf domChanges * 0.15 +
    videoScoreOf activeVideos * 0.10

/-- One full `NeuroFadeDetector._updateDopamineScore` step: composite raw
score, sensitivity multiplier, clamp, and EMA smoothing against the previous
score. -/
noncomputable def updateDopamineScore (cutRate avgMotion : ℝ) (fastScrolls : ℕ)
    (elapsed : ℝ) (domChanges activeVideos : ℕ) (sensitivity prev : ℝ) : ℝ :=
  smoothUpdate (rawCompositeScore cutRate avgMotion fastScrolls elapsed
    domChanges activeVideos) sensitivity prev

end NeuroFadeDetector

/-
Helper lemmas shared by the claim theorems.
-/

lemma chiSqTerms_self (h : List ℚ) : FrameAnalyzer.chiSqTerms h h = 0 := by
  induction h with
  | nil => rfl
  | cons a t ih =>
      simp [FrameAnalyzer.chiSqTerms, ih]

lemma chiSqTerms_comm (h1 h2 : List ℚ) :
    FrameAnalyzer.chiSqTerms h1 h2 = FrameAnalyzer.chiSqTerms h2 h1 := by
  induction h1 generalizing h2 with
  | nil => cases h2 <;> rfl
  | cons a t1 ih =>
      cases h2 with
      | nil => rfl
      | cons b t2 =>
          simp only [FrameAnalyzer.chiSqTerms, ih]
          have habs : (a - b) ^ 2 = (b - a) ^ 2 := by ring
          rw [habs, add_comm a b]

lemma chiSqTerms_nonneg (h1 h2 : List ℚ) : 0 ≤ FrameAnalyzer.chiSqTerms h1 h2 := by
  induction h1 generalizing h2 with
  | nil => cases h2 <;> simp [FrameAnalyzer.chiSqTerms]
  | cons a t1 ih =>
      cases h2 with
      | nil => simp [FrameAnalyzer.chiSqTerms]
      | cons b t2 =>
          simp only [FrameAnalyzer.chiSqTerms]
          have hterm : 0 ≤ if 0 < a + b then (a - b) ^ 2 / (a + b) else 0 := by
            split_ifs with hs
            · exact div_nonneg (sq_nonneg _) (le_of_lt hs)
            · exact le_refl 0
          exact add_nonneg hterm (ih t2)

/-- C2 counterexample: starting from score 0 with sensitivity 0.5 and a
pre-smoothing raw score of 100, the first update gives 15, but the second
identical update gives 0.15·100 + 0.85·15 = 27.75, not the 25.5 the claim
states. -/
theorem smoothing_second_step_cex :
    NeuroFadeDetector.smoothUpdate (100 : ℚ) (1/2)
        (NeuroFadeDetector.smoothUpdate (100 : ℚ) (1/2) 0) = 27.75 ∧
    (27.75 : ℚ) ≠ 25.5 := by
  constructor
  · norm_num [NeuroFadeDetector.smoothUpdate, min_def]
  · norm_num

/-- C2 (amended): with previous score 0, sensitivity 0.5 and raw score 100,
one smoothing update yields exactly 15, and a second identical update yields
exactly 27.75 (= 0.15·100 + 0.85·15). -/
theorem smoothing_steps :
    NeuroFadeDetector.smoothUpdate (100 : ℚ) (1/2) 0 = 15 ∧
    NeuroFadeDetector.smoothUpdate (100 : ℚ) (1/2) 15 = 27.75 := by
  constructor
  · norm_num [NeuroFadeDetector.smoothUpdate, min_def]
  · norm_num [NeuroFadeDetector.smoothUpdate, min_def]

/-- C6: for equal-length histograms with non-negative entries the chi-squared
histogram distance satisfies distance(h,h) = 0, symmetry, and
non-negativity. -/
theorem histogramDiff_algebra (h1 h2 : List ℚ) (hlen : h1.length = h2.length)
    (h1n : ∀ x ∈ h1, 0 ≤ x) (h2n : ∀ x ∈ h2, 0 ≤ x) :
    FrameAnalyzer.histogramDiff h1 h1 = 0 ∧
    FrameAnalyzer.histogramDiff h1 h2 = FrameAnalyzer.histogramDiff h2 h1 ∧
    0 ≤ FrameAnalyzer.histogramDiff h1 h2 := by
  refine ⟨?_, ?_, ?_⟩
  · rw [FrameAnalyzer.histogramDiff, chiSqTerms_self, zero_div]
  · rw [FrameAnalyzer.histogramDiff, FrameAnalyzer.histogramDiff,
      chiSqTerms_comm, hlen]
  · exact div_nonneg (chiSqTerms_nonneg h1 h2) (Nat.cast_nonneg _)

/-- Concrete instance of the histogram-distance algebra theorem. -/
theorem histogramDiff_algebra_witness :
    FrameAnalyzer.histogramDiff [(1:ℚ)/2, 1/2] [(1:ℚ)/2, 1/2] = 0 ∧
    FrameAnalyzer.histogramDiff [(1:ℚ)/2, 1/2] [(3:ℚ)/4, 1/4] =
      FrameAnalyzer.histogramDiff [(3:ℚ)/4, 1/4] [(1:ℚ)/2, 1/2] ∧
    0 ≤ FrameAnalyzer.histogramDiff [(1:ℚ)/2, 1/2] [(3:ℚ)/4, 1/4] :=
  histogramDiff_algebra [(1:ℚ)/2, 1/2] [(3:ℚ)/4, 1/4] (by norm_num)
    (by norm_num) (by norm_num)

/-- C10: one convergence tick never crosses the target: the new current value
lies between the old current value and the target; it can equal the target
only through the snap branch; consequently any closed interval containing both
current and target still contains the new current value. -/
theorem stepChannel_no_overshoot (t c : ℚ) :
    min c t ≤ FadeEngine.stepChannel t c ∧
    FadeEngine.stepChannel t c ≤ max c t ∧
    (1/1000 < |t - c| → FadeEngine.stepChannel t c ≠ t) ∧
    (∀ lo hi : ℚ, lo ≤ c → c ≤ hi → lo ≤ t → t ≤ hi →
      lo ≤ FadeEngine.stepChannel t c ∧ FadeEngine.stepChannel t c ≤ hi) := by
  have hbounds : min c t ≤ FadeEngine.stepChannel t c ∧
      FadeEngine.stepChannel t c ≤ max c t := by
    unfold FadeEngine.stepChannel
    split_ifs with h
    · rcases le_total c t with hct | htc
      · rw [min_eq_left hct, max_eq_right hct]
        constructor <;> nlinarith
      · rw [min_eq_right htc, max_eq_left htc]
        constructor <;> nlinarith
    · exact ⟨min_le_right c t, le_max_right c t⟩
  refine ⟨hbounds.1, hbounds.2, ?_, ?_⟩
  · intro h
    unfold FadeEngine.stepChannel
    rw [if_pos h]
    intro heq
    have hne : t - c ≠ 0 := by
      intro h0
      rw [h0, abs_zero] at h
      exact absurd h (by norm_num)
    apply hne
    linarith [heq]
  · intro lo hi hlc hch hlt hth
    constructor
    · exact le_trans (le_min hlc hlt) hbounds.1
    · exact le_trans hbounds.2 (max_le hch hth)

/-- Concrete instance of the no-overshoot theorem. -/
theorem stepChannel_no_overshoot_witness :
    FadeEngine.stepChannel 1 0 ≠ 1 ∧
    (0 : ℚ) ≤ FadeEngine.stepChannel 1 0 ∧ FadeEngine.stepChannel 1 0 ≤ 1 :=
  ⟨(stepChannel_no_overshoot 1 0).2.2.1 (by norm_num),
    ((stepChannel_no_overshoot 1 0).2.2.2 0 1 (by norm_num) (by norm_num)
      (by norm_num) (by norm_num)).1,
    ((stepChannel_no_overshoot 1 0).2.2.2 0 1 (by norm_num) (by norm_num)
      (by norm_num) (by norm_num)).2⟩

/-- C1 counterexample: starting from the score-driven target for score 90,
trigger breathe at t = 0, then let the periodic score update run with score 50
during the 5000 ms window, and finally let the breathe timeout fire.  The
score update overwrites the calming preset (so the preset is not kept forced
for the 5000 ms), and the timeout restores the target saved at trigger time
(for score 90), not the score-driven target at restoration time (for
score 50). -/
theorem breathe_cex :
    (FadeEngine.engineBreathe ⟨FadeEngine.updateTarget 90, false, none⟩ 0).targetEffects
        = FadeEngine.breathePreset ∧
    (FadeEngine.engineUpdate
        (FadeEngine.engineBreathe ⟨FadeEngine.updateTarget 90, false, none⟩ 0)
        50).targetEffects ≠ FadeEngine.breathePreset ∧
    (FadeEngine.engineRestore
        (FadeEngine.engineUpdate
          (FadeEngine.engineBreathe ⟨FadeEngine.updateTarget 90, false, none⟩ 0)
          50)).targetEffects = FadeEngine.updateTarget 90 ∧
    FadeEngine.updateTarget (90 : ℚ) ≠ FadeEngine.updateTarget 50 := by
  refine ⟨rfl, ?_, rfl, ?_⟩
  · intro heq
    have hg := congrArg Effects.grayscale heq
    norm_num [FadeEngine.engineUpdate, FadeEngine.engineBreathe,
      FadeEngine.updateTarget, FadeEngine.effectsFromIntensity,
      FadeEngine.segIntensity, FadeEngine.breathePreset, min_def] at hg
  · intro heq
    have hg := congrArg Effects.grayscale heq
    norm_num [FadeEngine.updateTarget, FadeEngine.effectsFromIntensity,
      FadeEngine.segIntensity, min_def] at hg

/-- C1 (amended): breathe() immediately forces the calming preset and
schedules, for 5000 ms later, a restore of the target saved at trigger time;
score-driven updates keep applying unconditionally (so they can overwrite the
preset during the window); when the timeout fires, the saved trigger-time
target is restored and breathe mode ends, after which score-driven updates
continue as before. -/
theorem breathe_override (s : FadeEngine.EngineState) (now : ℕ) (score : ℚ)
    (d : ℕ) (sv : Effects ℚ) :
    (FadeEngine.engineBreathe s now).targetEffects = FadeEngine.breathePreset ∧
    (FadeEngine.engineBreathe s now).breatheMode = true ∧
    (FadeEngine.engineBreathe s now).pending = some (now + 5000, s.targetEffects) ∧
    (FadeEngine.engineUpdate s score).targetEffects = FadeEngine.updateTarget score ∧
    (FadeEngine.engineUpdate s score).pending = s.pending ∧
    (s.pending = some (d, sv) →
      (FadeEngine.engineRestore s).targetEffects = sv ∧
      (FadeEngine.engineRestore s).breatheMode = false ∧
      (FadeEngine.engineRestore s).pending = none) := by
  refine ⟨rfl, rfl, rfl, rfl, rfl, fun h => ?_⟩
  simp [FadeEngine.engineRestore, h]

/-- Concrete instance of the breathe-override theorem: a state whose pending
restore carries the neutral target set is restored to exactly that target. -/
theorem breathe_override_witness :
    (FadeEngine.engineRestore
        ⟨FadeEngine.breathePreset, true, some (5000, FadeEngine.neutralEffects)⟩).targetEffects
      = FadeEngine.neutralEffects ∧
    (FadeEngine.engineRestore
        ⟨FadeEngine.breathePreset, true, some (5000, FadeEngine.neutralEffects)⟩).breatheMode
      = false :=
  ⟨((breathe_override ⟨FadeEngine.breathePreset, true,
      some (5000, FadeEngine.neutralEffects)⟩ 0 30 5000
      FadeEngine.neutralEffects).2.2.2.2.2 rfl).1,
    ((breathe_override ⟨FadeEngine.breathePreset, true,
      some (5000, FadeEngine.neutralEffects)⟩ 0 30 5000
      FadeEngine.neutralEffects).2.2.2.2.2 rfl).2.1⟩

/-- C3 counterexample: a scene cut recorded at t = 0 with no later analyzer
activity is still counted by a `getMetrics` read: the stored state yields
cutRate 10/3 rather than the 0 the claim requires for an observation at
t = 3001 ms (`getMetrics` takes no observation time and performs no
eviction at all). -/
theorem getMetrics_stale_cut_cex :
    (FrameAnalyzer.getMetrics ⟨none, [0], [], 1, none⟩).cutRate = 10/3 ∧
    (10/3 : ℚ) ≠ 0 := by
  constructor
  · norm_num [FrameAnalyzer.getMetrics]
  · norm_num

/-- C3 (amended): eviction of out-of-window events happens on the intake and
analysis paths, not at reads.  Every scene cut stored by a successful
`analyzeFrame` at time `now` is younger than the 3000 ms window (so the
cutRate returned by `analyzeFrame` itself excludes a cut recorded at t = 0
when analysis runs at t = 3001 and includes it at t = 2999), and every scroll
or DOM-change event surviving an intake at time `now` is younger than the
10000 ms window; reads (`getMetrics`, the fast-scroll and DOM counts used by
the score update) count whatever survived the last intake, without their own
eviction. -/
theorem windowed_eviction :
    (∀ (st : FrameAnalyzer.AnalyzerState) (v : FrameAnalyzer.VideoSource) (now : ℕ),
      (FrameAnalyzer.analyzeFrame st v now).2 ≠ none →
      ∀ t ∈ (FrameAnalyzer.analyzeFrame st v now).1.sceneCuts, now < t + 3000) ∧
    ((FrameAnalyzer.analyzeFrame ⟨none, [0], [], 1, none⟩
        ⟨false, false, 2, 160, some []⟩ 3001).2).map FrameAnalyzer.AnalyzeResult.cutRate
      = some 0 ∧
    ((FrameAnalyzer.analyzeFrame ⟨none, [0], [], 1, none⟩
        ⟨false, false, 2, 160, some []⟩ 2999).2).map FrameAnalyzer.AnalyzeResult.cutRate
      = some (10/3) ∧
    (∀ (events : List NeuroFadeDetector.ScrollEvent) (now : ℕ) (velocity dy : ℚ),
      ∀ e ∈ NeuroFadeDetector.scrollIntake events now velocity dy,
        now < e.time + 10000) ∧
    (∀ (changes : List ℕ) (now : ℕ),
      ∀ t ∈ NeuroFadeDetector.domIntake changes now, now < t + 10000) := by
  refine ⟨?_, by norm_num [FrameAnalyzer.analyzeFrame],
    by norm_num [FrameAnalyzer.analyzeFrame], ?_, ?_⟩
  · intro st v now hsome t ht
    by_cases hg : (v.paused || v.ended || decide (v.readyState < 2) ||
        (v.videoWidth == 0)) = true
    · exact absurd (by simp [FrameAnalyzer.analyzeFrame, hg]) hsome
    · cases hf : v.frame with
      | none => exact absurd (by simp [FrameAnalyzer.analyzeFrame, hg, hf]) hsome
      | some data =>
          simp only [FrameAnalyzer.analyzeFrame, hg, hf, Bool.false_eq_true,
            if_false] at ht
          simp only [List.mem_filter, decide_eq_true_eq] at ht
          omega
  · intro events now velocity dy e he
    simp only [NeuroFadeDetector.scrollIntake, List.mem_filter,
      decide_eq_true_eq] at he
    omega
  · intro changes now t ht
    simp only [NeuroFadeDetector.domIntake, List.mem_filter,
      decide_eq_true_eq] at ht
    omega

/-- Concrete instance of the windowed-eviction theorem: a cut surviving an
analysis at t = 5 and a scroll event surviving an intake at t = 5 are both
inside their windows. -/
theorem windowed_eviction_witness :
    (5 : ℕ) < 0 + 3000 ∧ (5 : ℕ) < 5 + 10000 :=
  ⟨windowed_eviction.1 ⟨none, [0], [], 1, none⟩ ⟨false, false, 2, 160, some []⟩ 5
      (by simp [FrameAnalyzer.analyzeFrame]) 0
      (by norm_num [FrameAnalyzer.analyzeFrame]),
    windowed_eviction.2.2.2.1 [] 5 900 10 ⟨5, 900, 10⟩
      (by norm_num [NeuroFadeDetector.scrollIntake])⟩

/-- C9: for a source that is paused, ended, not ready, has zero width, or
whose pixel read raises (modelled as a missing frame), `analyzeFrame` returns
no result and leaves the analyzer state exactly as it was; totality of the
embedded function reflects that the code catches the capture error instead of
letting it escape the sampling tick. -/
theorem analyzeFrame_failure_no_mutation (st : FrameAnalyzer.AnalyzerState)
    (v : FrameAnalyzer.VideoSource) (now : ℕ)
    (h : v.paused = true ∨ v.ended = true ∨ v.readyState < 2 ∨ v.videoWidth = 0 ∨
      v.frame = none) :
    FrameAnalyzer.analyzeFrame st v now = (st, none) := by
  by_cases hg : (v.paused || v.ended || decide (v.readyState < 2) ||
      (v.videoWidth == 0)) = true
  · simp [FrameAnalyzer.analyzeFrame, hg]
  · rcases h with h | h | h | h | h
    · simp [h] at hg
    · simp [h] at hg
    · simp [decide_eq_true h] at hg
    · simp [h] at hg
    · simp [FrameAnalyzer.analyzeFrame, hg, h]

/-- Concrete instance of the capture-failure theorem: a playing, ready source
whose pixel read raises leaves a non-trivial analyzer state untouched. -/
theorem analyzeFrame_failure_witness :
    FrameAnalyzer.analyzeFrame ⟨none, [0], [1/2], 3, some []⟩
        ⟨false, false, 2, 160, none⟩ 7
      = (⟨none, [0], [1/2], 3, some []⟩, none) :=
  analyzeFrame_failure_no_mutation ⟨none, [0], [1/2], 3, some []⟩
    ⟨false, false, 2, 160, none⟩ 7 (Or.inr (Or.inr (Or.inr (Or.inr rfl))))

/-- C4: one aggregator update maps any previous score in [0,100] and any
admissible raw signals (non-negative rates, counts and elapsed time,
sensitivity in [0,1]) to a new score still in [0,100]; applied at every
update, the score therefore never leaves [0,100]. -/
theorem score_bounded (cutRate avgMotion : ℝ) (fastScrolls : ℕ) (elapsed : ℝ)
    (domChanges activeVideos : ℕ) (sensitivity prev : ℝ)
    (hcut : 0 ≤ cutRate) (hmot : 0 ≤ avgMotion) (hel : 0 ≤ elapsed)
    (hs0 : 0 ≤ sensitivity) (hs1 : sensitivity ≤ 1)
    (hp0 : 0 ≤ prev) (hp1 : prev ≤ 100) :
    0 ≤ NeuroFadeDetector.updateDopamineScore cutRate avgMotion fastScrolls
        elapsed domChanges activeVideos sensitivity prev ∧
    NeuroFadeDetector.updateDopamineScore cutRate avgMotion fastScrolls elapsed
        domChanges activeVideos sensitivity prev ≤ 100 := by
  have h1a : (0:ℝ) ≤ min (cutRate / 8) 1 := le_min (by positivity) zero_le_one
  have h1b : min (cutRate / 8) 1 ≤ 1 := min_le_right _ _
  have h2a : (0:ℝ) ≤ min (avgMotion / 0.25) 1 := le_min (by positivity) zero_le_one
  have h2b : min (avgMotion / 0.25) 1 ≤ 1 := min_le_right _ _
  have hscene0 : 0 ≤ NeuroFadeDetector.sceneCutScoreOf cutRate avgMotion := by
    unfold NeuroFadeDetector.sceneCutScoreOf; linarith
  have hscene1 : NeuroFadeDetector.sceneCutScoreOf cutRate avgMotion ≤ 100 := by
    unfold NeuroFadeDetector.sceneCutScoreOf; linarith
  have h3a : (0:ℝ) ≤ min ((fastScrolls : ℝ) / 5) 1 :=
    le_min (by positivity) zero_le_one
  have h3b : min ((fastScrolls : ℝ) / 5) 1 ≤ 1 := min_le_right _ _
  have hscr0 : 0 ≤ NeuroFadeDetector.scrollScoreOf fastScrolls := by
    unfold NeuroFadeDetector.scrollScoreOf; linarith
  have hscr1 : NeuroFadeDetector.scrollScoreOf fastScrolls ≤ 100 := by
    unfold NeuroFadeDetector.scrollScoreOf; linarith
  have ht0 : 0 ≤ NeuroFadeDetector.timeScoreOf elapsed := by
    unfold NeuroFadeDetector.timeScoreOf
    refine le_min (mul_nonneg ?_ (by norm_num)) (by norm_num)
    refine Real.logb_nonneg (by norm_num) ?_
    have h60 : (0:ℝ) ≤ elapsed / 60 := by positivity
    linarith
  have ht1 : NeuroFadeDetector.timeScoreOf elapsed ≤ 100 := min_le_right _ _
  have h4a : (0:ℝ) ≤ min ((domChanges : ℝ) / 20) 1 :=
    le_min (by positivity) zero_le_one
  have h4b : min ((domChanges : ℝ) / 20) 1 ≤ 1 := min_le_right _ _
  have hcc0 : 0 ≤ NeuroFadeDetector.contentChangeScoreOf domChanges := by
    unfold NeuroFadeDetector.contentChangeScoreOf; linarith
  have hcc1 : NeuroFadeDetector.contentChangeScoreOf domChanges ≤ 100 := by
    unfold NeuroFadeDetector.contentChangeScoreOf; linarith
  have h5a : (0:ℝ) ≤ min ((activeVideos : ℝ) / 3) 1 :=
    le_min (by positivity) zero_le_one
  have h5b : min ((activeVideos : ℝ) / 3) 1 ≤ 1 := min_le_right _ _
  have hv0 : 0 ≤ NeuroFadeDetector.videoScoreOf activeVideos := by
    unfold NeuroFadeDetector.videoScoreOf; linarith
  have hv1 : NeuroFadeDetector.videoScoreOf activeVideos ≤ 100 := by
    unfold NeuroFadeDetector.videoScoreOf; linarith
  set r := NeuroFadeDetector.rawCompositeScore cutRate avgMotion fastScrolls
    elapsed domChanges activeVideos with hr
  have hraw0 : 0 ≤ r := by
    rw [hr]; unfold NeuroFadeDetector.rawCompositeScore; linarith
  have hraw1 : r ≤ 100 := by
    rw [hr]; unfold NeuroFadeDetector.rawCompositeScore; linarith
  have hmin0 : (0:ℝ) ≤ min (r * (0.5 + sensitivity * 1.5)) 100 :=
    le_min (mul_nonneg hraw0 (by linarith)) (by norm_num)
  have hmin1 : min (r * (0.5 + sensitivity * 1.5)) 100 ≤ 100 := min_le_right _ _
  unfold NeuroFadeDetector.updateDopamineScore NeuroFadeDetector.smoothUpdate
  rw [← hr]
  constructor <;> linarith

/-- Concrete instance of the score-boundedness theorem. -/
theorem score_bounded_witness :
    0 ≤ NeuroFadeDetector.updateDopamineScore 9 1 7 120 25 2 (1/2) 50 ∧
    NeuroFadeDetector.updateDopamineScore 9 1 7 120 25 2 (1/2) 50 ≤ 100 :=
  score_bounded 9 1 7 120 25 2 (1/2) 50 (by norm_num) (by norm_num)
    (by norm_num) (by norm_num) (by norm_num) (by norm_num) (by norm_num)

set_option maxHeartbeats 2000000 in
lemma intensity_eq_clamp :
    (FadeEngine.intensity : ℝ → ℝ) =
      fun s => max 0 (min (FadeEngine.pwLe s) 1) := by
  funext s
  simp only [FadeEngine.intensity, FadeEngine.segIntensity, FadeEngine.pwLe,
    FadeEngine.seg1, FadeEngine.seg2, FadeEngine.seg3, FadeEngine.seg4,
    min_def, max_def]
  split_ifs <;> linarith

lemma continuous_pwLe : Continuous FadeEngine.pwLe := by
  unfold FadeEngine.pwLe
  have h1 : Continuous FadeEngine.seg1 := by unfold FadeEngine.seg1; fun_prop
  have h2 : Continuous FadeEngine.seg2 := by unfold FadeEngine.seg2; fun_prop
  have h3 : Continuous FadeEngine.seg3 := by unfold FadeEngine.seg3; fun_prop
  have h4 : Continuous FadeEngine.seg4 := by unfold FadeEngine.seg4; fun_prop
  have h34 : Continuous fun s : ℝ =>
      if s ≤ 85 then FadeEngine.seg3 s else FadeEngine.seg4 s := by
    refine Continuous.if_le h3 h4 continuous_id continuous_const ?_
    intro x hx
    rw [hx]
    unfold FadeEngine.seg3 FadeEngine.seg4
    norm_num
  have h234 : Continuous fun s : ℝ =>
      if s ≤ 65 then FadeEngine.seg2 s
      else if s ≤ 85 then FadeEngine.seg3 s else FadeEngine.seg4 s := by
    refine Continuous.if_le h2 h34 continuous_id continuous_const ?_
    intro x hx
    rw [hx]
    unfold FadeEngine.seg2 FadeEngine.seg3
    norm_num
  refine Continuous.if_le h1 h234 continuous_id continuous_const ?_
  intro x hx
  rw [hx]
  unfold FadeEngine.seg1 FadeEngine.seg2
  norm_num

/-- C5: the score → intensity map hits the anchors intensity(25) = 0,
intensity(45) = 0.25, intensity(65) = 0.60, intensity(85) = 0.85 and
intensity(100) = 1 exactly, equals the four stated linear segments between the
thresholds (with the ≥ 85 segment clamped at 1), and is continuous on all of
ℝ, in particular at every segment boundary. -/
theorem intensity_curve :
    FadeEngine.intensity (25 : ℝ) = 0 ∧
    FadeEngine.intensity (45 : ℝ) = 0.25 ∧
    FadeEngine.intensity (65 : ℝ) = 0.60 ∧
    FadeEngine.intensity (85 : ℝ) = 0.85 ∧
    FadeEngine.intensity (100 : ℝ) = 1 ∧
    (∀ s : ℝ, s < 25 → FadeEngine.intensity s = 0) ∧
    (∀ s : ℝ, 25 ≤ s → s < 45 →
      FadeEngine.intensity s = (s - 25) / 20 * 0.25) ∧
    (∀ s : ℝ, 45 ≤ s → s < 65 →
      FadeEngine.intensity s = 0.25 + (s - 45) / 20 * 0.35) ∧
    (∀ s : ℝ, 65 ≤ s → s < 85 →
      FadeEngine.intensity s = 0.60 + (s - 65) / 20 * 0.25) ∧
    (∀ s : ℝ, 85 ≤ s →
      FadeEngine.intensity s = min (0.85 + (s - 85) / 15 * 0.15) 1) ∧
    Continuous (FadeEngine.intensity : ℝ → ℝ) := by
  refine ⟨?_, ?_, ?_, ?_, ?_, ?_, ?_, ?_, ?_, ?_, ?_⟩
  · norm_num [FadeEngine.intensity, FadeEngine.segIntensity, min_def]
  · norm_num [FadeEngine.intensity, FadeEngine.segIntensity, min_def]
  · norm_num [FadeEngine.intensity, FadeEngine.segIntensity, min_def]
  · norm_num [FadeEngine.intensity, FadeEngine.segIntensity, min_def]
  · norm_num [FadeEngine.intensity, FadeEngine.segIntensity, min_def]
  · intro s h
    unfold FadeEngine.intensity
    rw [if_pos h]
  · intro s h1 h2
    unfold FadeEngine.intensity FadeEngine.segIntensity
    rw [if_neg (not_lt.mpr h1), if_pos h2, min_eq_left (by linarith)]
    norm_num
  · intro s h1 h2
    unfold FadeEngine.intensity FadeEngine.segIntensity
    rw [if_neg (not_lt.mpr (by linarith : (25:ℝ) ≤ s)),
      if_neg (not_lt.mpr h1), if_pos h2, min_eq_left (by linarith)]
    norm_num
  · intro s h1 h2
    unfold FadeEngine.intensity FadeEngine.segIntensity
    rw [if_neg (not_lt.mpr (by linarith : (25:ℝ) ≤ s)),
      if_neg (not_lt.mpr (by linarith : (45:ℝ) ≤ s)),
      if_neg (not_lt.mpr h1), if_pos h2, min_eq_left (by linarith)]
    norm_num
  · intro s h1
    unfold FadeEngine.intensity FadeEngine.segIntensity
    rw [if_neg (not_lt.mpr (by linarith : (25:ℝ) ≤ s)),
      if_neg (not_lt.mpr (by linarith : (45:ℝ) ≤ s)),
      if_neg (not_lt.mpr (by linarith : (65:ℝ) ≤ s)),
      if_neg (not_lt.mpr h1)]
    norm_num
  · rw [intensity_eq_clamp]
    exact continuous_const.max (continuous_pwLe.min continuous_const)

/-- Concrete instances of the intensity-curve theorem on two segment
interiors. -/
theorem intensity_curve_witness :
    FadeEngine.intensity (30 : ℝ) = (30 - 25) / 20 * 0.25 ∧
    FadeEngine.intensity (90 : ℝ) = min (0.85 + (90 - 85) / 15 * 0.15) 1 := by
  obtain ⟨-, -, -, -, -, -, hseg1, -, -, hseg4, -⟩ := intensity_curve
  exact ⟨hseg1 30 (by norm_num) (by norm_num), hseg4 90 (by norm_num)⟩

lemma stepChannel_self (t : ℚ) : FadeEngine.stepChannel t t = t := by
  unfold FadeEngine.stepChannel
  rw [sub_self, abs_zero, if_neg (by norm_num)]

lemma stepChannel_apply_far {t x : ℚ} (h : 1/1000 < |t - x|) :
    FadeEngine.stepChannel t x = x + (t - x) * (6/100) := by
  unfold FadeEngine.stepChannel
  rw [if_pos h]

lemma stepChannel_apply_near {t x : ℚ} (h : ¬ 1/1000 < |t - x|) :
    FadeEngine.stepChannel t x = t := by
  unfold FadeEngine.stepChannel
  rw [if_neg h]

/-- C7 counterexample: with target 1/940 and current 0 the initial difference
is 1/940 > 0.001, the claimed tick bound ceil(log((1/940)/0.001)/log(1/0.94))
equals exactly 1, yet after 1 tick the channel is not snapped to the target
(the tick multiplies the difference by 0.94; the exact snap needs one further
tick). -/
theorem convergence_bound_cex :
    ⌈Real.log (((1:ℝ)/940) / 0.001) / Real.log (1 / 0.94)⌉ = 1 ∧
    (FadeEngine.stepChannel (1/940))^[1] 0 ≠ 1/940 := by
  constructor
  · have h1 : ((1:ℝ)/940) / 0.001 = 50/47 := by norm_num
    have h2 : (1:ℝ) / 0.94 = 50/47 := by norm_num
    rw [h1, h2, div_self
      (Real.log_ne_zero_of_pos_of_ne_one (by norm_num) (by norm_num)),
      Int.ceil_one]
  · rw [Function.iterate_one, stepChannel_apply_far
      (by rw [sub_zero, abs_of_pos (by norm_num : (0:ℚ) < 1/940)]; norm_num)]
    norm_num

/-- C7 (amended): every tick taken with |current − target| > 0.001 multiplies
the difference by exactly 0.94 (so it strictly decreases); for any n at least
log(initial_diff/0.001)/log(1/0.94), the channel is snapped exactly to the
target within n + 1 ticks — one tick more than the claimed ceil bound, the
extra tick being the one that performs the exact snap; and once every channel
equals its target the stillAnimating flag is false, so the animation loop
stops. -/
theorem convergence_termination :
    (∀ t x : ℚ, 1/1000 < |t - x| →
      |t - FadeEngine.stepChannel t x| = 0.94 * |t - x|) ∧
    (∀ (t c : ℚ) (n : ℕ), c ≠ t →
      Real.log (((|t - c| : ℚ) : ℝ) / 0.001) / Real.log (1 / 0.94) ≤ (n : ℝ) →
      (FadeEngine.stepChannel t)^[n + 1] c = t) ∧
    (∀ e : Effects ℚ, FadeEngine.stillAnimating e e = false) := by
  refine ⟨?_, ?_, ?_⟩
  · intro t x h
    rw [stepChannel_apply_far h]
    have heq : t - (x + (t - x) * (6/100)) = (47/50) * (t - x) := by ring
    rw [heq, abs_mul, abs_of_pos (by norm_num : (0:ℚ) < 47/50)]
    norm_num
  · intro t c n hne hlog
    have hd : (0:ℚ) < |t - c| := abs_pos.mpr (sub_ne_zero.mpr (Ne.symm hne))
    have hA : (47/50 : ℚ)^n * |t - c| ≤ 1/1000 := by
      by_cases hsmall : |t - c| ≤ 1/1000
      · have hp : (47/50:ℚ)^n ≤ 1 := pow_le_one₀ (by norm_num) (by norm_num)
        calc (47/50:ℚ)^n * |t - c| ≤ 1 * |t - c| :=
              mul_le_mul_of_nonneg_right hp (le_of_lt hd)
          _ ≤ 1/1000 := by linarith
      · push_neg at hsmall
        have hdR : (0.001 : ℝ) < ((|t - c| : ℚ) : ℝ) := by
          have hc := (Rat.cast_lt (K := ℝ)).mpr hsmall
          push_cast at hc
          push_cast
          linarith [hc]
        have hlogpos : (0:ℝ) < Real.log (1/0.94) := Real.log_pos (by norm_num)
        have h1 : Real.log (((|t - c| : ℚ) : ℝ) / 0.001) ≤
            (n : ℝ) * Real.log (1/0.94) := by
          rw [div_le_iff₀ hlogpos] at hlog
          linarith [hlog]
        have h2 : Real.log (((|t - c| : ℚ) : ℝ) / 0.001) ≤
            Real.log ((1/0.94 : ℝ)^n) := by
          rw [Real.log_pow]
          exact h1
        have hx : (0:ℝ) < ((|t - c| : ℚ) : ℝ) / 0.001 := by
          have : (0:ℝ) < ((|t - c| : ℚ) : ℝ) := by linarith
          positivity
        have hy : (0:ℝ) < (1/0.94 : ℝ)^n := by positivity
        have h3 : ((|t - c| : ℚ) : ℝ) / 0.001 ≤ (1/0.94 : ℝ)^n :=
          (Real.log_le_log_iff hx hy).mp h2
        have h5 : ((|t - c| : ℚ) : ℝ) ≤ 0.001 * (1/0.94 : ℝ)^n := by
          rw [div_le_iff₀ (by norm_num : (0:ℝ) < 0.001)] at h3
          linarith
        have hpow : ((47:ℝ)/50)^n * (1/0.94 : ℝ)^n = 1 := by
          rw [← mul_pow]
          norm_num
        have h6 : ((47:ℝ)/50)^n * ((|t - c| : ℚ) : ℝ) ≤ 1/1000 := by
          calc ((47:ℝ)/50)^n * ((|t - c| : ℚ) : ℝ)
              ≤ ((47:ℝ)/50)^n * (0.001 * (1/0.94 : ℝ)^n) :=
                mul_le_mul_of_nonneg_left h5 (by positivity)
            _ = 0.001 * (((47:ℝ)/50)^n * (1/0.94 : ℝ)^n) := by ring
            _ = 0.001 := by rw [hpow]; ring
            _ = 1/1000 := by norm_num
        have h7 : (((47/50 : ℚ)^n * |t - c| : ℚ) : ℝ) ≤ ((1/1000 : ℚ) : ℝ) := by
          push_cast at h6 ⊢
          linarith [h6]
        exact (Rat.cast_le (K := ℝ)).mp h7
    have hiter : ∀ k : ℕ, (FadeEngine.stepChannel t)^[k] c = t ∨
        t - (FadeEngine.stepChannel t)^[k] c = (t - c) * (47/50)^k := by
      intro k
      induction k with
      | zero => right; simp
      | succ k ih =>
          rw [Function.iterate_succ_apply']
          rcases ih with ih | ih
          · left
            rw [ih]
            exact stepChannel_self t
          · by_cases hg : 1/1000 < |t - (FadeEngine.stepChannel t)^[k] c|
            · right
              rw [stepChannel_apply_far hg, pow_succ]
              have heq : t - ((FadeEngine.stepChannel t)^[k] c +
                  (t - (FadeEngine.stepChannel t)^[k] c) * (6/100)) =
                  (t - (FadeEngine.stepChannel t)^[k] c) * (47/50) := by ring
              rw [heq, ih]
              ring
            · left
              exact stepChannel_apply_near hg
    rcases hiter n with hn | hn
    · rw [Function.iterate_succ_apply', hn]
      exact stepChannel_self t
    · rw [Function.iterate_succ_apply']
      have habs : |t - (FadeEngine.stepChannel t)^[n] c| =
          |t - c| * (47/50)^n := by
        rw [hn, abs_mul, abs_pow, abs_of_pos (by norm_num : (0:ℚ) < 47/50)]
      refine stepChannel_apply_near (not_lt.mpr ?_)
      rw [habs]
      linarith [hA]
  · intro e
    simp [FadeEngine.stillAnimating]

/-- Concrete instances of the convergence-termination theorem: a channel with
initial difference exactly 0.001 snaps on the first tick; one far tick scales
the difference by 0.94; equal current and target give a false stillAnimating
flag. -/
theorem convergence_termination_witness :
    (FadeEngine.stepChannel (1/1000 : ℚ))^[0 + 1] 0 = 1/1000 ∧
    |(1:ℚ) - FadeEngine.stepChannel 1 0| = 0.94 * |1 - 0| ∧
    FadeEngine.stillAnimating FadeEngine.neutralEffects
      FadeEngine.neutralEffects = false := by
  refine ⟨convergence_termination.2.1 (1/1000) 0 0 (by norm_num) ?_,
    convergence_termination.1 1 0 (by norm_num),
    convergence_termination.2.2 _⟩
  have h : ((|(1/1000 : ℚ) - 0| : ℚ) : ℝ) / 0.001 = 1 := by
    rw [sub_zero, abs_of_pos (by norm_num : (0:ℚ) < 1/1000)]
    push_cast
    norm_num
  rw [h, Real.log_one, zero_div]
  norm_num

lemma chiTerm_bounds (a b : ℚ) (ha : 0 ≤ a) (hb : 0 ≤ b) :
    (a - b)^2 / (a + b + 1/10000000000) ≤
      (if 0 < a + b then (a - b)^2 / (a + b) else 0) ∧
    (if 0 < a + b then (a - b)^2 / (a + b) else 0) -
      (a - b)^2 / (a + b + 1/10000000000) ≤ 1/10000000000 := by
  by_cases hs : 0 < a + b
  · rw [if_pos hs]
    have hsε : (0:ℚ) < a + b + 1/10000000000 := by linarith
    have hle : (a - b)^2 / (a + b + 1/10000000000) ≤ (a - b)^2 / (a + b) :=
      div_le_div_of_nonneg_left (sq_nonneg _) hs (by linarith)
    refine ⟨hle, ?_⟩
    have hd2 : (a - b)^2 ≤ (a + b)^2 := by nlinarith [mul_nonneg ha hb]
    rw [div_sub_div _ _ (ne_of_gt hs) (ne_of_gt hsε),
      div_le_iff₀ (by positivity)]
    nlinarith [hd2, hs, hsε]
  · rw [if_neg hs]
    have hab : a + b = 0 := le_antisymm (not_lt.mp hs) (add_nonneg ha hb)
    have ha0 : a = 0 := by linarith
    have hb0 : b = 0 := by linarith
    rw [ha0, hb0]
    norm_num

lemma chiTerms_bounds (h1 h2 : List ℚ) (hlen : h1.length = h2.length)
    (h1n : ∀ x ∈ h1, 0 ≤ x) (h2n : ∀ x ∈ h2, 0 ≤ x) :
    NPUBridge.graphChiTerms h1 h2 ≤ FrameAnalyzer.chiSqTerms h1 h2 ∧
    FrameAnalyzer.chiSqTerms h1 h2 - NPUBridge.graphChiTerms h1 h2 ≤
      h1.length * (1/10000000000) := by
  induction h1 generalizing h2 with
  | nil =>
      cases h2 with
      | nil => simp [NPUBridge.graphChiTerms, FrameAnalyzer.chiSqTerms]
      | cons b t2 => simp at hlen
  | cons a t1 ih =>
      cases h2 with
      | nil => simp at hlen
      | cons b t2 =>
          have hlen2 : t1.length = t2.length := by simpa using hlen
          have h1n2 : ∀ x ∈ t1, 0 ≤ x := fun x hx =>
            h1n x (List.mem_cons_of_mem _ hx)
          have h2n2 : ∀ x ∈ t2, 0 ≤ x := fun x hx =>
            h2n x (List.mem_cons_of_mem _ hx)
          obtain ⟨ihle, ihdiff⟩ := ih t2 hlen2 h1n2 h2n2
          obtain ⟨tle, tdiff⟩ := chiTerm_bounds a b
            (h1n a (List.mem_cons_self _ _)) (h2n b (List.mem_cons_self _ _))
          constructor
          · simp only [NPUBridge.graphChiTerms, FrameAnalyzer.chiSqTerms]
            exact add_le_add tle ihle
          · simp only [NPUBridge.graphChiTerms, FrameAnalyzer.chiSqTerms,
              List.length_cons]
            push_cast
            linarith

/-- C8 counterexample: two normalized, non-negative, equal-length (48-bin)
histograms differing only in a 1e-9 sliver of mass.  The reference
(zero-sum-skipping) distance is 1/24e9, the graph (epsilon-regularized)
distance is 1/26.4e9, and their difference exceeds 1e-4 of either value
(the relative error is 1/11 ≈ 9%), so the two paths are not equivalent within
1e-4 relative tolerance. -/
theorem dual_path_tolerance_cex :
    NPUBridge.tinyMassH1.length = NPUBridge.tinyMassH2.length ∧
    (∀ x ∈ NPUBridge.tinyMassH1, 0 ≤ x) ∧
    (∀ x ∈ NPUBridge.tinyMassH2, 0 ≤ x) ∧
    (1/10000 : ℚ) *
        |NPUBridge.jsHistogramDistance NPUBridge.tinyMassH1 NPUBridge.tinyMassH2| <
      |NPUBridge.jsHistogramDistance NPUBridge.tinyMassH1 NPUBridge.tinyMassH2 -
        NPUBridge.graphHistogramDistance NPUBridge.tinyMassH1 NPUBridge.tinyMassH2| ∧
    (1/10000 : ℚ) *
        |NPUBridge.graphHistogramDistance NPUBridge.tinyMassH1 NPUBridge.tinyMassH2| <
      |NPUBridge.jsHistogramDistance NPUBridge.tinyMassH1 NPUBridge.tinyMassH2 -
        NPUBridge.graphHistogramDistance NPUBridge.tinyMassH1 NPUBridge.tinyMassH2| := by
  have hjs : NPUBridge.jsHistogramDistance NPUBridge.tinyMassH1
      NPUBridge.tinyMassH2 = 1/24000000000 := by
    norm_num [NPUBridge.jsHistogramDistance, NPUBridge.tinyMassH1,
      NPUBridge.tinyMassH2, FrameAnalyzer.chiSqTerms]
  have hg : NPUBridge.graphHistogramDistance NPUBridge.tinyMassH1
      NPUBridge.tinyMassH2 = 1/26400000000 := by
    norm_num [NPUBridge.graphHistogramDistance, NPUBridge.tinyMassH1,
      NPUBridge.tinyMassH2, NPUBridge.graphChiTerms]
  refine ⟨by norm_num [NPUBridge.tinyMassH1, NPUBridge.tinyMassH2],
    by norm_num [NPUBridge.tinyMassH1],
    by norm_num [NPUBridge.tinyMassH2], ?_, ?_⟩
  · rw [hjs, hg,
      show (1/24000000000 : ℚ) - 1/26400000000 = 1/264000000000 by norm_num,
      abs_of_pos (by norm_num : (0:ℚ) < 1/24000000000),
      abs_of_pos (by norm_num : (0:ℚ) < 1/264000000000)]
    norm_num
  · rw [hjs, hg,
      show (1/24000000000 : ℚ) - 1/26400000000 = 1/264000000000 by norm_num,
      abs_of_pos (by norm_num : (0:ℚ) < 1/26400000000),
      abs_of_pos (by norm_num : (0:ℚ) < 1/264000000000)]
    norm_num

/-- C8 (amended): for every pair of equal-length histograms with non-negative
entries, the epsilon-regularized graph distance never exceeds the reference
distance, and the two agree within 1e-10 ABSOLUTE tolerance (the epsilon of
the regularized denominator); a uniform 1e-4 relative tolerance does not hold
because bins carrying a tiny bin sum can dominate the distance. -/
theorem dual_path_distance (h1 h2 : List ℚ) (hlen : h1.length = h2.length)
    (h1n : ∀ x ∈ h1, 0 ≤ x) (h2n : ∀ x ∈ h2, 0 ≤ x) :
    NPUBridge.graphHistogramDistance h1 h2 ≤
      NPUBridge.jsHistogramDistance h1 h2 ∧
    NPUBridge.jsHistogramDistance h1 h2 -
      NPUBridge.graphHistogramDistance h1 h2 ≤ 1/10000000000 := by
  obtain ⟨hle, hdiff⟩ := chiTerms_bounds h1 h2 hlen h1n h2n
  unfold NPUBridge.graphHistogramDistance NPUBridge.jsHistogramDistance
  rcases Nat.eq_zero_or_pos h1.length with h0 | hpos
  · rw [h0]
    norm_num
  · have hlpos : (0:ℚ) < h1.length := by exact_mod_cast hpos
    constructor
    · exact (div_le_div_iff_of_pos_right hlpos).mpr hle
    · rw [← sub_div, div_le_iff₀ hlpos]
      calc FrameAnalyzer.chiSqTerms h1 h2 - NPUBridge.graphChiTerms h1 h2
          ≤ h1.length * (1/10000000000) := hdiff
        _ = 1/10000000000 * h1.length := by ring

/-- Concrete instance of the dual-path distance theorem. -/
theorem dual_path_distance_witness :
    NPUBridge.graphHistogramDistance [(1:ℚ)/2, 1/2] [(3:ℚ)/4, 1/4] ≤
      NPUBridge.jsHistogramDistance [(1:ℚ)/2, 1/2] [(3:ℚ)/4, 1/4] ∧
    NPUBridge.jsHistogramDistance [(1:ℚ)/2, 1/2] [(3:ℚ)/4, 1/4] -
      NPUBridge.graphHistogramDistance [(1:ℚ)/2, 1/2] [(3:ℚ)/4, 1/4] ≤
      1/10000000000 :=
  dual_path_distance [(1:ℚ)/2, 1/2] [(3:ℚ)/4, 1/4] (by norm_num)
    (by norm_num) (by norm_num)
